import Mathlib

/-!
Verification of the kiket-nodejs-sdk authentication and dispatch core.

This file gives a shallow embedding of the SDK's webhook-handling core:

* `verifySignature` / `generateSignature` from `src/auth.ts` (HMAC scheme);
* `verifyRuntimeToken` / `buildAuthContext` / `fetchJwks` from the JWT
  verification module (`part_010`);
* the handler registry `KiketHandlerRegistry` from `src/registry.ts`;
* the scope check `checkScopes` and the Express `dispatchHandler` of the
  token-authenticating SDK (`part_004`), and the `dispatchHandler` of the
  HMAC-authenticating SDK (`src/sdk.ts`);
* the `TelemetryReporter` from `src/telemetry.ts`.

Host-language primitives that are opaque to the SDK source (the HMAC-SHA256
digest, JWT decoding, the HTTP GET performed by axios, the outcome of a user
handler) enter the embedding as explicit function parameters, so every
definition stays executable and every theorem quantifies over them.
-/

namespace Kiket

/-- JavaScript values as far as the SDK's control flow inspects them:
`res.json` bodies, handler results and the truthiness tests applied to them. -/
inductive JSValue where
  | undef : JSValue
  | jsNull : JSValue
  | bool (b : Bool) : JSValue
  | num (n : Int) : JSValue
  | str (s : String) : JSValue
  | arr (elems : List JSValue) : JSValue
  | obj (fields : List (String × JSValue)) : JSValue

/-- JavaScript truthiness (`if (x)`, `x || y`) on the embedded values.
`NaN` is not representable with integer numbers, otherwise this is the
ECMAScript ToBoolean table. -/
def jsTruthy : JSValue → Bool
  | .undef => false
  | .jsNull => false
  | .bool b => b
  | .num n => n != 0
  | .str s => s != ""
  | .arr _ => true
  | .obj _ => true

/-- JavaScript truthiness of a possibly-absent string
(`undefined` and `""` are falsy); returns the string when truthy. -/
def truthyStr : Option String → Option String
  | none => none
  | some s => if s = "" then none else some s

/-- Header map of an HTTP request (assoc list, keys as sent). -/
def Headers := List (String × String)

/-- Header access `headers[k]` (first binding wins, as for a JS object). -/
def getHeader (h : Headers) (k : String) : Option String :=
  (List.find? (fun p => p.1 = k) h).map Prod.snd

/-- `headers[k1] || headers[k2]` — the first truthy of the two accesses,
as used by `verifySignature` for the case-variant header names. -/
def headerOr (h : Headers) (k1 k2 : String) : Option String :=
  match truthyStr (getHeader h k1) with
  | some s => some s
  | none => truthyStr (getHeader h k2)

/-- Parse the leading decimal-digit run of a character list. -/
def parseDigits : List Char → Option Nat
  | [] => none
  | c :: cs =>
    if c.isDigit then
      some (cs.takeWhile Char.isDigit |>.foldl
        (fun acc d => acc * 10 + (d.toNat - 48)) (c.toNat - 48))
    else none

/-- JavaScript `parseInt(s, 10)`: an optional sign followed by a maximal
digit prefix; `none` models the `NaN` result when no digit is found. -/
def parseIntJs (s : String) : Option Int :=
  match s.data with
  | '-' :: cs => (parseDigits cs).map (fun n => -(n : Int))
  | '+' :: cs => (parseDigits cs).map (fun n => (n : Int))
  | cs => (parseDigits cs).map (fun n => (n : Int))

/-- Errors raised as `AuthenticationError` by the two verifiers
(`src/auth.ts` and the JWT module). -/
inductive AuthError where
  | missingSecret : AuthError
  | missingSignatureHeader : AuthError
  | missingTimestampHeader : AuthError
  | invalidTimestampHeader : AuthError
  | timestampOutOfRange (skew : Nat) : AuthError
  | invalidSignature : AuthError
  | missingToken : AuthError
  | tokenExpired : AuthError
  | invalidClaim (m : String) : AuthError
  | invalidTokenSignature : AuthError
  | keyFetchFailed (m : String) : AuthError
  | invalidToken (m : String) : AuthError
deriving DecidableEq

/-- The message string carried by each `AuthenticationError`, as in the source. -/
def AuthError.message : AuthError → String
  | .missingSecret => "Webhook secret not configured"
  | .missingSignatureHeader => "Missing X-Kiket-Signature header"
  | .missingTimestampHeader => "Missing X-Kiket-Timestamp header"
  | .invalidTimestampHeader => "Invalid X-Kiket-Timestamp header"
  | .timestampOutOfRange skew =>
      "Request timestamp too old or too far in future: " ++ toString skew ++ "s"
  | .invalidSignature => "Invalid signature"
  | .missingToken => "Missing runtime_token in payload"
  | .tokenExpired => "Runtime token has expired"
  | .invalidClaim m => "Invalid token claim: " ++ m
  | .invalidTokenSignature => "Invalid token signature"
  | .keyFetchFailed m => "Failed to fetch JWKS: " ++ m
  | .invalidToken m => "Invalid token: " ++ m

/-- Outcome of `verifySignature`: success, a thrown `AuthenticationError`,
or the `RangeError` that `crypto.timingSafeEqual` raises when the two
buffers differ in byte length. -/
inductive VerifyErr where
  | auth (e : AuthError) : VerifyErr
  | range : VerifyErr
deriving DecidableEq

/-- `crypto.timingSafeEqual(Buffer.from(a), Buffer.from(b))`: throws a
`RangeError` when the lengths differ, otherwise compares contents. -/
def timingSafeEqual (a b : String) : Except VerifyErr Bool :=
  if a.length ≠ b.length then .error .range
  else .ok (a = b)

/-- `verifySignature(secret, body, headers)` from `src/auth.ts`.
`hmacHex secret payload` stands for
`crypto.createHmac('sha256', secret).update(payload).digest('hex')` and
`now` for `Math.floor(Date.now() / 1000)`. -/
def verifySignature (hmacHex : String → String → String)
    (secret : Option String) (body : String) (headers : Headers)
    (now : Int) : Except VerifyErr Unit :=
  match truthyStr secret with
  | none => .error (.auth .missingSecret)
  | some sec =>
    match headerOr headers "x-kiket-signature" "X-Kiket-Signature" with
    | none => .error (.auth .missingSignatureHeader)
    | some signature =>
      match headerOr headers "x-kiket-timestamp" "X-Kiket-Timestamp" with
      | none => .error (.auth .missingTimestampHeader)
      | some timestamp =>
        match parseIntJs timestamp with
        | none => .error (.auth .invalidTimestampHeader)
        | some requestTime =>
          let timeDiff := (now - requestTime).natAbs
          if timeDiff > 300 then
            .error (.auth (.timestampOutOfRange timeDiff))
          else
            let expectedSignature := hmacHex sec (timestamp ++ "." ++ body)
            match timingSafeEqual signature expectedSignature with
            | .error e => .error e
            | .ok true => .ok ()
            | .ok false => .error (.auth .invalidSignature)

/-- `generateSignature(secret, body, timestamp)` from `src/auth.ts`:
returns the hex HMAC over `"{timestamp}.{body}"` and the timestamp string. -/
def generateSignature (hmacHex : String → String → String)
    (secret body : String) (ts : Int) : String × String :=
  let tsStr := toString ts
  (hmacHex secret (tsStr ++ "." ++ body), tsStr)

/-- `checkScopes(requiredScopes, availableScopes)` from the SDK
(`part_004`): the wildcard grants everything, otherwise the required
scopes that are not available are returned. -/
def checkScopes (requiredScopes availableScopes : List String) : List String :=
  if availableScopes.contains "*" then []
  else requiredScopes.filter (fun scope => !(availableScopes.contains scope))

/-- A registered handler's metadata (`HandlerMetadata` from `types.ts`);
the opaque handler function is represented by a numeric identity. -/
structure HandlerMetadata where
  event : String
  version : String
  handler : Nat
  requiredScopes : List String
deriving DecidableEq

/-- The registry's backing `Map<string, HandlerMetadata>`: an insertion-ordered
association list with set-replaces-in-place semantics. -/
structure Registry where
  entries : List (String × HandlerMetadata)

/-- `makeKey(event, version)` from `src/registry.ts`. -/
def makeKey (event version : String) : String :=
  event ++ ":" ++ version

/-- `Map.prototype.set`: replace the existing binding in place, else append. -/
def mapSet (key : String) (v : HandlerMetadata) :
    List (String × HandlerMetadata) → List (String × HandlerMetadata)
  | [] => [(key, v)]
  | (k, w) :: rest =>
    if k = key then (k, v) :: rest else (k, w) :: mapSet key v rest

/-- The registry with no handlers. -/
def Registry.empty : Registry := ⟨[]⟩

/-- `register(event, handler, version, requiredScopes = [])`. -/
def Registry.register (r : Registry) (event : String) (handler : Nat)
    (version : String) (requiredScopes : List String := []) : Registry :=
  ⟨mapSet (makeKey event version)
    { event := event, version := version, handler := handler,
      requiredScopes := requiredScopes } r.entries⟩

/-- `get(event, version)`: `Map.prototype.get` on the composed key. -/
def Registry.get (r : Registry) (event version : String) :
    Option HandlerMetadata :=
  (List.find? (fun p => p.1 = makeKey event version) r.entries).map Prod.snd

/-- All entries whose key matches `(event, version)` — used to state that a
lookup can match at most one registration. -/
def Registry.matching (r : Registry) (event version : String) :
    List (String × HandlerMetadata) :=
  r.entries.filter (fun p => p.1 = makeKey event version)

/-- The backing map never holds two bindings of the same key. -/
def Registry.keysNodup (r : Registry) : Prop :=
  (r.entries.map Prod.fst).Nodup

/-! ### JWT runtime-token verification (JWT module, `part_010`) -/

/-- A JSON Web Key Set, kept abstract as the list of its keys. -/
def Jwks := List String
deriving DecidableEq

/-- `JWKS_CACHE_TTL = 3600 * 1000` (one hour in milliseconds). -/
def JWKS_CACHE_TTL : Nat := 3600 * 1000

/-- One `JwksCache` entry: the key set plus `Date.now()` at fetch time. -/
structure JwksCacheEntry where
  jwks : Jwks
  fetchedAt : Nat
deriving DecidableEq

/-- The module-level `jwksCache : Map<string, JwksCache>`, keyed by base URL. -/
def JwksCacheState := List (String × JwksCacheEntry)

/-- `jwksCache.get(baseUrl)`. -/
def cacheGet (c : JwksCacheState) (baseUrl : String) : Option JwksCacheEntry :=
  (List.find? (fun p => p.1 = baseUrl) c).map Prod.snd

/-- `jwksCache.set(baseUrl, entry)` (replace in place, else append). -/
def cacheSet (baseUrl : String) (e : JwksCacheEntry) :
    JwksCacheState → JwksCacheState
  | [] => [(baseUrl, e)]
  | (k, w) :: rest =>
    if k = baseUrl then (k, e) :: rest else (k, w) :: cacheSet baseUrl e rest

/-- `baseUrl.replace(/\/+$/, '')`: strip every trailing slash. -/
def stripTrailingSlashes (s : String) : String :=
  ⟨s.data.reverse.dropWhile (fun c => c = '/') |>.reverse⟩

/-- The well-known JWKS URL built by `fetchJwks`. -/
def jwksUrl (baseUrl : String) : String :=
  stripTrailingSlashes baseUrl ++ "/.well-known/jwks.json"

/-- Result of one `fetchJwks` call: the returned value or error, the cache
afterwards, and the URL of the HTTP GET if one was performed. -/
structure FetchJwksResult where
  result : Except AuthError Jwks
  cache : JwksCacheState
  fetched : Option String

/-- `fetchJwks(baseUrl)` from the JWT module: serve the cached key set when
it is younger than the TTL, otherwise GET `{baseUrl}/.well-known/jwks.json`
and replace the cache entry. `now` is `Date.now()` (ms) and `getResult`
the outcome of the axios GET (`.error msg` for a network/HTTP failure). -/
def fetchJwks (now : Nat) (getResult : Except String Jwks)
    (baseUrl : String) (cache : JwksCacheState) : FetchJwksResult :=
  match cacheGet cache baseUrl with
  | some cached =>
    if now - cached.fetchedAt < JWKS_CACHE_TTL then
      { result := .ok cached.jwks, cache := cache, fetched := none }
    else
      fetchFresh
  | none => fetchFresh
where
  fetchFresh : FetchJwksResult :=
    match getResult with
    | .ok jwks =>
      { result := .ok jwks,
        cache := cacheSet baseUrl { jwks := jwks, fetchedAt := now } cache,
        fetched := some (jwksUrl baseUrl) }
    | .error msg =>
      { result := .error (.keyFetchFailed msg), cache := cache,
        fetched := some (jwksUrl baseUrl) }

/-- The claims of a verified runtime token (`JwtPayload`). -/
structure JwtPayload where
  sub : String
  org_id : Option Int := none
  ext_id : Option Int := none
  proj_id : Option Int := none
  scopes : Option (List String) := none
  iss : String := "kiket.dev"
  iat : Int := 0
  exp : Int := 0

/-- The `authentication` object of a webhook payload. -/
structure AuthField where
  runtime_token : Option String := none

/-- The parts of a webhook JSON payload the dispatcher inspects. -/
structure Payload where
  authentication : Option AuthField := none

/-- The runtime token read by `verifyRuntimeToken`:
`payload.authentication.runtime_token`, with JS falsiness
(`undefined` or the empty string count as missing). -/
def runtimeTokenOf (payload : Payload) : Option String :=
  truthyStr (payload.authentication.bind (fun a => a.runtime_token))

/-- `verifyRuntimeToken(payload, baseUrl)`: extract the runtime token and
verify it. `decodeJwt` stands for the jose ES256 verification against the
fetched JWKS; it already folds every jose failure into an
`AuthenticationError`, as the source's `decodeJwt` does. -/
def verifyRuntimeToken (decodeJwt : String → Except AuthError JwtPayload)
    (payload : Payload) : Except AuthError JwtPayload :=
  match runtimeTokenOf payload with
  | none => .error .missingToken
  | some token => decodeJwt token

/-- `AuthContext` built from a verified token (`buildAuthContext`).
The ISO rendering of the expiry is elided: `expiresAt` keeps the raw
`exp` claim (`none` when `exp` is falsy, as in the source's ternary). -/
structure AuthContext where
  runtimeToken : Option String
  tokenType : String
  expiresAt : Option Int
  scopes : List String
  orgId : Option Int
  extId : Option Int
  projId : Option Int

/-- `buildAuthContext(jwtPayload, rawPayload)` from the JWT module. -/
def buildAuthContext (jwtPayload : JwtPayload) (rawPayload : Payload) :
    AuthContext :=
  { runtimeToken := (rawPayload.authentication.getD {}).runtime_token,
    tokenType := "runtime",
    expiresAt := if jwtPayload.exp ≠ 0 then some jwtPayload.exp else none,
    scopes := jwtPayload.scopes.getD [],
    orgId := jwtPayload.org_id,
    extId := jwtPayload.ext_id,
    projId := jwtPayload.proj_id }

/-! ### The Express dispatch handlers -/

/-- An HTTP response shaped by the dispatcher (`res.status(..).json(..)`). -/
structure Response where
  status : Nat
  body : JSValue

/-- `{ error: message }` response body. -/
def errorBody (msg : String) : JSValue := .obj [("error", .str msg)]

/-- The generic acknowledgement `{ ok: true }`. -/
def ackBody : JSValue := .obj [("ok", .bool true)]

/-- An exception escaping the registered handler: a `KiketSDKError`
(mapped to 400 by the outer catch), any other `Error` (mapped to 500 with
its message), or a thrown non-`Error` value (500, generic message). -/
inductive Thrown where
  | sdkError (msg : String) : Thrown
  | error (msg : String) : Thrown
  | nonError : Thrown

/-- `error instanceof Error ? error.message : String(error)` (the non-Error
string rendering is collapsed to a placeholder). -/
def Thrown.msg : Thrown → String
  | .sdkError m => m
  | .error m => m
  | .nonError => "<non-error value>"

/-- `error.constructor.name` for the telemetry extras. -/
def Thrown.cls : Thrown → Option String
  | .sdkError _ => some "KiketSDKError"
  | .error _ => some "Error"
  | .nonError => none

/-- The outer catch of both dispatch handlers:
`KiketSDKError → 400`, `Error → 500` with the message, otherwise a
generic 500. -/
def thrownResponse : Thrown → Response
  | .sdkError m => { status := 400, body := errorBody m }
  | .error m => { status := 500, body := errorBody m }
  | .nonError => { status := 500, body := errorBody "Internal server error" }

/-- One `telemetry.record(...)` call made by the dispatcher. -/
inductive TelemetryCall where
  | ok (event version : String) : TelemetryCall
  | err (event version : String) (errorMessage : String)
      (errorClass : Option String) : TelemetryCall

/-- Everything a dispatch produces: the HTTP response and the telemetry
calls made along the way. -/
structure DispatchResult where
  response : Response
  telemetry : List TelemetryCall

/-- `value.trim()`: strip leading and trailing whitespace. -/
def trimJs (s : String) : String :=
  ⟨((s.data.dropWhile Char.isWhitespace).reverse.dropWhile
      Char.isWhitespace).reverse⟩

/-- `coerceOptional(value)` from the SDK: falsy → `undefined`, else the
trimmed value or `undefined` when trimming leaves nothing. -/
def coerceOptional : Option String → Option String
  | none => none
  | some s =>
    if s = "" then none
    else
      let trimmed := trimJs s
      if trimmed = "" then none else some trimmed

/-- The requested version, in priority order path segment `||` version
header `||` query parameter (each through `coerceOptional`). -/
def requestedVersion (pathVersion headerVersion queryVersion : Option String) :
    Option String :=
  match coerceOptional pathVersion with
  | some v => some v
  | none =>
    match coerceOptional headerVersion with
    | some v => some v
    | none => coerceOptional queryVersion

/-- The 400 message sent when no version is supplied. -/
def versionRequiredMsg : String :=
  "Event version required. Provide X-Kiket-Event-Version header, version query param, or /v/{version} path."

/-- The 404 message, naming the event and the requested version. -/
def notFoundMsg (event version : String) : String :=
  "No handler registered for event \x27" ++ event ++ "\x27 with version \x27"
    ++ version ++ "\x27"

/-- `/^\d+$/.test(v)`: `v` is non-empty and all decimal digits. -/
def isNumericVersion (v : String) : Bool :=
  v != "" && v.data.all Char.isDigit

/-- `v.replace(/^v/, '')`: drop a single leading `v` when present. -/
def stripLeadingV (v : String) : String :=
  match v.data with
  | 'v' :: rest => ⟨rest⟩
  | _ => v

/-- The alternate version form tried by the dispatcher: a purely numeric
version gains a `v` prefix, otherwise a leading `v` is stripped. -/
def alternateVersion (v : String) : String :=
  if isNumericVersion v then "v" ++ v else stripLeadingV v

/-- Registry lookup with the single normalization retry of the
token-authenticating dispatcher (`part_004`, lines 161–168). -/
def resolveHandler (r : Registry) (event v : String) : Option HandlerMetadata :=
  match r.get event v with
  | some metadata => some metadata
  | none => r.get event (alternateVersion v)

/-- The invocation stage shared by both dispatchers (handler call, telemetry,
`res.json(result || { ok: true })`, error mapping). `handlerRun` gives the
awaited outcome of each registered handler on this delivery. -/
def invokeStage (handlerRun : Nat → Except Thrown JSValue)
    (event version : String) (handlerId : Nat) : DispatchResult :=
  match handlerRun handlerId with
  | .ok result =>
    { response :=
        { status := 200,
          body := if jsTruthy result then result else ackBody },
      telemetry := [.ok event version] }
  | .error t =>
    { response := thrownResponse t,
      telemetry := [.err event version t.msg t.cls] }

/-- An inbound delivery as the token-authenticating dispatcher sees it. -/
structure TokenRequest where
  event : String
  pathVersion : Option String := none
  headerVersion : Option String := none
  queryVersion : Option String := none
  payload : Payload := {}

/-- The `dispatchHandler` of the token-authenticating SDK (`part_004`):
JWT verification, version resolution with the normalization retry, scope
check, invocation. -/
def dispatchToken (decodeJwt : String → Except AuthError JwtPayload)
    (handlerRun : Nat → Except Thrown JSValue)
    (registry : Registry) (req : TokenRequest) : DispatchResult :=
  match verifyRuntimeToken decodeJwt req.payload with
  | .error e =>
    { response := { status := 401, body := errorBody e.message },
      telemetry := [] }
  | .ok jwtPayload =>
    match requestedVersion req.pathVersion req.headerVersion req.queryVersion with
    | none =>
      { response := { status := 400, body := errorBody versionRequiredMsg },
        telemetry := [] }
    | some version =>
      match resolveHandler registry req.event version with
      | none =>
        { response :=
            { status := 404, body := errorBody (notFoundMsg req.event version) },
          telemetry := [] }
      | some metadata =>
        let authContext := buildAuthContext jwtPayload req.payload
        let requiredScopes := metadata.requiredScopes
        if requiredScopes.length > 0 then
          let missing := checkScopes requiredScopes authContext.scopes
          if missing.length > 0 then
            { response :=
                { status := 403,
                  body := .obj
                    [("error", .str "Insufficient scopes"),
                     ("required_scopes", .arr (requiredScopes.map .str)),
                     ("missing_scopes", .arr (missing.map .str))] },
              telemetry := [] }
          else invokeStage handlerRun req.event metadata.version metadata.handler
        else invokeStage handlerRun req.event metadata.version metadata.handler

/-- An inbound delivery as the HMAC-authenticating dispatcher sees it. -/
structure HmacRequest where
  event : String
  pathVersion : Option String := none
  headerVersion : Option String := none
  queryVersion : Option String := none
  headers : Headers := []
  rawBody : String := ""

/-- Message of the `RangeError` thrown by `crypto.timingSafeEqual` on
buffers of unequal length. -/
def rangeErrorMessage : String := "Input buffers must have the same byte length"

/-- The `dispatchHandler` of the HMAC-authenticating SDK (`src/sdk.ts`):
signature verification, version resolution (no normalization retry),
registry lookup, invocation. An `AuthenticationError` from
`verifySignature` is answered with 401; the `RangeError` of
`timingSafeEqual` is not an `AuthenticationError`, so it falls through to
the outer catch and is answered with 500. -/
def dispatchHmac (hmacHex : String → String → String) (now : Int)
    (webhookSecret : Option String)
    (handlerRun : Nat → Except Thrown JSValue)
    (registry : Registry) (req : HmacRequest) : DispatchResult :=
  match verifySignature hmacHex webhookSecret req.rawBody req.headers now with
  | .error (.auth e) =>
    { response := { status := 401, body := errorBody e.message },
      telemetry := [] }
  | .error .range =>
    { response := { status := 500, body := errorBody rangeErrorMessage },
      telemetry := [] }
  | .ok _ =>
    match requestedVersion req.pathVersion req.headerVersion req.queryVersion with
    | none =>
      { response := { status := 400, body := errorBody versionRequiredMsg },
        telemetry := [] }
    | some version =>
      match registry.get req.event version with
      | none =>
        { response :=
            { status := 404, body := errorBody (notFoundMsg req.event version) },
          telemetry := [] }
      | some metadata =>
        invokeStage handlerRun req.event metadata.version metadata.handler

/-- Modelled from the spec (for comparison only — the source has no such
selection): the verifier choice C1 claims the dispatcher performs, following
the spec words "JWT field present → Token Verifier; else HMAC headers →
Signature Verifier; neither → Rejected(401)". -/
inductive VerifierChoice where
  | token : VerifierChoice
  | signature : VerifierChoice
  | reject401 : VerifierChoice
deriving DecidableEq

/-- Modelled from the spec: the credential-driven verifier selection of §4.5
transition rule 2, which C1 attributes to the dispatcher. -/
def specChooseVerifier (payload : Payload) (headers : Headers) : VerifierChoice :=
  match runtimeTokenOf payload with
  | some _ => .token
  | none =>
    match headerOr headers "x-kiket-signature" "X-Kiket-Signature",
          headerOr headers "x-kiket-timestamp" "X-Kiket-Timestamp" with
    | some _, some _ => .signature
    | _, _ => .reject401

/-! ### Telemetry reporter (`src/telemetry.ts`) -/

/-- The state a `TelemetryReporter` holds after construction. -/
structure TelemetryReporter where
  enabled : Bool
  hasFeedbackHook : Bool
  endpoint : Option String

/-- `resolveEndpoint(url)`: falsy → none; strip trailing slashes and append
`/telemetry` unless already present. -/
def resolveEndpoint (url : Option String) : Option String :=
  match truthyStr url with
  | none => none
  | some u =>
    let trimmed := stripTrailingSlashes u
    if trimmed.endsWith "/telemetry" then some trimmed
    else some (trimmed ++ "/telemetry")

/-- `s.toLowerCase()` (code-point-wise lowering, as the embedding needs it
only on ASCII flag values). -/
def toLowerJs (s : String) : String := ⟨s.data.map Char.toLower⟩

/-- The `TelemetryReporter` constructor: reporting is enabled only when the
configuration enables it and `KIKET_SDK_TELEMETRY_OPTOUT` is not `"1"`
(lower-cased, absent treated as the empty string). -/
def mkReporter (enabledCfg : Bool) (telemetryUrl : Option String)
    (hasFeedbackHook : Bool) (optOutEnv : Option String) : TelemetryReporter :=
  let optOut := toLowerJs (optOutEnv.getD "") = "1"
  { enabled := enabledCfg && !optOut,
    hasFeedbackHook := hasFeedbackHook,
    endpoint := resolveEndpoint telemetryUrl }

/-- What one `record` call did: which sinks were attempted and the warnings
logged for swallowed sink errors. `record` always returns such a trace —
in the source every sink error is caught, so nothing propagates. -/
structure RecordTrace where
  hookAttempted : Bool
  postAttempted : Bool
  warnings : List String
deriving DecidableEq

/-- `TelemetryReporter.record(...)`: no-op when disabled; otherwise the
feedback hook and the remote POST are each attempted in its own try/catch.
`hookOutcome` and `postOutcome` give the behaviour of the configured hook
and of the `axios.post` on this call (`.error` for a raised error). -/
def TelemetryReporter.record (r : TelemetryReporter)
    (hookOutcome postOutcome : Except String Unit) : RecordTrace :=
  if !r.enabled then
    { hookAttempted := false, postAttempted := false, warnings := [] }
  else
    let hookStep :=
      if r.hasFeedbackHook then
        match hookOutcome with
        | .ok _ => (true, ([] : List String))
        | .error e => (true, ["Feedback hook failed: " ++ e])
      else (false, [])
    let postStep :=
      match r.endpoint with
      | some _ =>
        match postOutcome with
        | .ok _ => (true, ([] : List String))
        | .error e => (true, ["Failed to send telemetry: " ++ e])
      | none => (false, [])
    { hookAttempted := hookStep.1, postAttempted := postStep.1,
      warnings := hookStep.2 ++ postStep.2 }

/-! ### Helper lemmas -/

/-- A demo keyed digest used by witnesses to instantiate the abstract
HMAC-SHA256 parameter. -/
def hmacDemo (k m : String) : String := "mac[" ++ k ++ "|" ++ m ++ "]"

theorem find?_mapSet_self (key : String) (v : HandlerMetadata)
    (l : List (String × HandlerMetadata)) :
    List.find? (fun p => p.1 = key) (mapSet key v l) = some (key, v) := by
  induction l with
  | nil => simp [mapSet]
  | cons hd tl ih =>
    obtain ⟨k, w⟩ := hd
    by_cases h : k = key
    · subst h
      simp [mapSet]
    · simp [mapSet, h, ih]

theorem find?_mapSet_other (key k' : String) (v : HandlerMetadata)
    (l : List (String × HandlerMetadata)) (hne : k' ≠ key) :
    List.find? (fun p => p.1 = k') (mapSet key v l)
      = List.find? (fun p => p.1 = k') l := by
  induction l with
  | nil => simp [mapSet, Ne.symm hne]
  | cons hd tl ih =>
    obtain ⟨k, w⟩ := hd
    by_cases h : k = key
    · subst h
      simp [mapSet, Ne.symm hne]
    · by_cases h2 : k = k'
      · subst h2
        simp [mapSet, h]
      · simp [mapSet, h, h2, ih]

theorem mapSet_map_fst (key : String) (v : HandlerMetadata)
    (l : List (String × HandlerMetadata)) (h : key ∈ l.map Prod.fst) :
    (mapSet key v l).map Prod.fst = l.map Prod.fst := by
  induction l with
  | nil => simp at h
  | cons hd tl ih =>
    obtain ⟨k, w⟩ := hd
    by_cases hk : k = key
    · subst hk
      simp [mapSet]
    · rw [List.map_cons] at h
      rcases List.mem_cons.mp h with h1 | h2
      · exact absurd h1.symm hk
      · simp [mapSet, hk, ih h2]

theorem mapSet_map_fst_new (key : String) (v : HandlerMetadata)
    (l : List (String × HandlerMetadata)) (h : key ∉ l.map Prod.fst) :
    (mapSet key v l).map Prod.fst = l.map Prod.fst ++ [key] := by
  induction l with
  | nil => simp [mapSet]
  | cons hd tl ih =>
    obtain ⟨k, w⟩ := hd
    have h1 : ¬key = k ∧ key ∉ tl.map Prod.fst := by
      rw [List.map_cons] at h
      exact not_or.mp (fun hor => h (List.mem_cons.mpr hor))
    simp [mapSet, Ne.symm h1.1, ih h1.2]

theorem keysNodup_mapSet (key : String) (v : HandlerMetadata)
    (l : List (String × HandlerMetadata)) (h : (l.map Prod.fst).Nodup) :
    ((mapSet key v l).map Prod.fst).Nodup := by
  by_cases hk : key ∈ l.map Prod.fst
  · rw [mapSet_map_fst key v l hk]
    exact h
  · rw [mapSet_map_fst_new key v l hk]
    exact h.append (List.nodup_singleton key)
      (List.disjoint_singleton.mpr hk)

theorem filter_key_length_le_one (k : String)
    (l : List (String × HandlerMetadata)) (h : (l.map Prod.fst).Nodup) :
    (l.filter (fun p => p.1 = k)).length ≤ 1 := by
  induction l with
  | nil => simp
  | cons hd tl ih =>
    obtain ⟨k1, w⟩ := hd
    rw [List.map_cons, List.nodup_cons] at h
    by_cases hk : k1 = k
    · subst hk
      have hnil : tl.filter (fun p => p.1 = k1) = [] := by
        apply List.filter_eq_nil_iff.mpr
        intro p hp
        obtain ⟨p1, p2⟩ := p
        simp only [decide_eq_true_eq]
        intro hpk
        have hmem : p1 ∈ tl.map Prod.fst := List.mem_map_of_mem Prod.fst hp
        exact h.1 (hpk ▸ hmem)
      simp [List.filter, hnil]
    · simpa [List.filter, hk] using ih h.2

theorem string_append_right_injective (a b c : String)
    (h : a ++ b = a ++ c) : b = c := by
  have hd : (a ++ b).data = (a ++ c).data := by rw [h]
  simp only [String.data_append] at hd
  exact congrArg String.mk (List.append_cancel_left hd)

theorem makeKey_version_injective (e v1 v2 : String)
    (h : makeKey e v1 = makeKey e v2) : v1 = v2 := by
  apply string_append_right_injective (e ++ ":")
  simpa [makeKey, String.append_assoc] using h

theorem registry_get_register_self (r : Registry) (e v : String) (hid : Nat)
    (sc : List String) :
    (r.register e hid v sc).get e v
      = some { event := e, version := v, handler := hid, requiredScopes := sc } := by
  simp [Registry.get, Registry.register, find?_mapSet_self]

theorem registry_get_register_other (r : Registry) (e v e' v' : String)
    (hid : Nat) (sc : List String) (hne : makeKey e' v' ≠ makeKey e v) :
    (r.register e hid v sc).get e' v' = r.get e' v' := by
  simp [Registry.get, Registry.register, find?_mapSet_other _ _ _ _ hne]

/-! ### Claim theorems -/

/-- **C3**: for all lists `required` and `granted` of scope strings, the
scope check returns the empty list iff `granted` contains the wildcard `"*"`
or is a superset of `required`; the result is always an order-preserving
sublist of `required`, and without the wildcard it holds exactly the
elements of `required` absent from `granted`. -/
theorem checkScopes_missing_spec (required granted : List String) :
    (checkScopes required granted = [] ↔
      "*" ∈ granted ∨ ∀ s ∈ required, s ∈ granted) ∧
    (checkScopes required granted).Sublist required ∧
    ("*" ∉ granted →
      ∀ s, s ∈ checkScopes required granted ↔ s ∈ required ∧ s ∉ granted) := by
  by_cases hw : "*" ∈ granted
  · have hc : granted.contains "*" = true := List.elem_eq_true_of_mem hw
    refine ⟨?_, ?_, fun hns => absurd hw hns⟩
    · simp [checkScopes, hc, hw]
    · simp [checkScopes, hc, hw]
  · have hc : granted.contains "*" = false := by
      rw [← Bool.not_eq_true]
      intro hcc
      exact hw (List.elem_iff.mp hcc)
    refine ⟨?_, ?_, ?_⟩
    · rw [checkScopes, if_neg (by simpa using hw), List.filter_eq_nil_iff]
      constructor
      · intro h
        right
        intro s hs
        have := h s hs
        simpa [List.elem_iff] using this
      · rintro (hstar | hsup) s hs
        · exact absurd hstar hw
        · simpa [List.elem_iff] using hsup s hs
    · rw [checkScopes, if_neg (by simpa using hw)]
      exact List.filter_sublist required
    · intro _ s
      rw [checkScopes, if_neg (by simpa using hw), List.mem_filter]
      simp [List.elem_iff]

/-- Witness for `checkScopes_missing_spec` at concrete scope lists. -/
theorem checkScopes_missing_spec_witness :
    (checkScopes ["read", "write"] ["read"] = [] ↔
      "*" ∈ ["read"] ∨ ∀ s ∈ ["read", "write"], s ∈ ["read"]) ∧
    ("write" ∈ checkScopes ["read", "write"] ["read"] ↔
      "write" ∈ ["read", "write"] ∧ "write" ∉ ["read"]) := by
  have h := checkScopes_missing_spec ["read", "write"] ["read"]
  exact ⟨h.1, h.2.2 (by decide) "write"⟩

/-- **C9**: registering `(e, v1)` then `(e, v2)` keeps both retrievable;
re-registering `(e, v1)` replaces only that entry and leaves `(e, v2)`
unchanged; and under the registry's no-duplicate-keys invariant — which
holds for the empty registry and is preserved by every registration — a
`(event, version)` lookup matches at most one registration. -/
theorem registry_register_frame (e v1 v2 : String) (h1 h2 h3 : Nat)
    (sc1 sc2 sc3 : List String) (hv : v1 ≠ v2) :
    ((Registry.empty.register e h1 v1 sc1).register e h2 v2 sc2).get e v1
      = some { event := e, version := v1, handler := h1, requiredScopes := sc1 } ∧
    ((Registry.empty.register e h1 v1 sc1).register e h2 v2 sc2).get e v2
      = some { event := e, version := v2, handler := h2, requiredScopes := sc2 } ∧
    (((Registry.empty.register e h1 v1 sc1).register e h2 v2 sc2).register
        e h3 v1 sc3).get e v1
      = some { event := e, version := v1, handler := h3, requiredScopes := sc3 } ∧
    (((Registry.empty.register e h1 v1 sc1).register e h2 v2 sc2).register
        e h3 v1 sc3).get e v2
      = some { event := e, version := v2, handler := h2, requiredScopes := sc2 } ∧
    Registry.empty.keysNodup ∧
    (∀ (r : Registry) (ev ver : String) (hid : Nat) (sc : List String),
      r.keysNodup → (r.register ev hid ver sc).keysNodup) ∧
    (∀ (r : Registry) (ev ver : String), r.keysNodup →
      (r.matching ev ver).length ≤ 1) := by
  have hk12 : makeKey e v1 ≠ makeKey e v2 :=
    fun hcc => hv (makeKey_version_injective e v1 v2 hcc)
  refine ⟨?_, ?_, ?_, ?_, ?_, ?_, ?_⟩
  · rw [registry_get_register_other _ _ _ _ _ _ _ hk12, registry_get_register_self]
  · rw [registry_get_register_self]
  · rw [registry_get_register_self]
  · rw [registry_get_register_other _ _ _ _ _ _ _ hk12.symm,
      registry_get_register_self]
  · simp [Registry.keysNodup, Registry.empty]
  · intro r ev ver hid sc h
    exact keysNodup_mapSet _ _ _ h
  · intro r ev ver h
    exact filter_key_length_le_one _ _ h

/-- Witness for `registry_register_frame` at concrete events and versions. -/
theorem registry_register_frame_witness :
    ((Registry.empty.register "eventA" 1 "v1" []).register "eventA" 2 "v2" []).get
        "eventA" "v1"
      = some { event := "eventA", version := "v1", handler := 1, requiredScopes := [] } ∧
    (((Registry.empty.register "eventA" 1 "v1" []).register "eventA" 2 "v2" []).register
        "eventA" 3 "v1" []).get "eventA" "v2"
      = some { event := "eventA", version := "v2", handler := 2, requiredScopes := [] } := by
  have h := registry_register_frame "eventA" "v1" "v2" 1 2 3 [] [] [] (by decide)
  exact ⟨h.1, h.2.2.2.1⟩

theorem cacheGet_cacheSet_self (k : String) (e : JwksCacheEntry)
    (c : JwksCacheState) : cacheGet (cacheSet k e c) k = some e := by
  induction c with
  | nil => simp [cacheSet, cacheGet]
  | cons hd tl ih =>
    obtain ⟨k1, w⟩ := hd
    by_cases h : k1 = k
    · subst h
      simp [cacheSet, cacheGet]
    · simp [cacheSet, cacheGet, h] at ih ⊢
      exact ih

/-- **C4**: a JWKS fetch with a cache entry younger than the 1-hour TTL
returns the cached key set with no network request and leaves the cache
unchanged; when the entry is absent or at least TTL old, a GET of
`{baseUrl}/.well-known/jwks.json` is performed and (on success) the cache
entry is replaced; consequently two fetches against the same base URL
within the TTL window perform at most one network request. -/
theorem fetchJwks_cache_ttl (cache : JwksCacheState) (baseUrl : String)
    (now : Nat) (getResult : Except String Jwks) :
    (∀ e, cacheGet cache baseUrl = some e →
      now - e.fetchedAt < JWKS_CACHE_TTL →
      fetchJwks now getResult baseUrl cache
        = { result := .ok e.jwks, cache := cache, fetched := none }) ∧
    ((cacheGet cache baseUrl = none ∨
        ∃ e, cacheGet cache baseUrl = some e ∧
          JWKS_CACHE_TTL ≤ now - e.fetchedAt) →
      (fetchJwks now getResult baseUrl cache).fetched
        = some (jwksUrl baseUrl) ∧
      ∀ jwks, getResult = .ok jwks →
        (fetchJwks now getResult baseUrl cache).result = .ok jwks ∧
        cacheGet (fetchJwks now getResult baseUrl cache).cache baseUrl
          = some { jwks := jwks, fetchedAt := now }) ∧
    (∀ (later : Nat) (jwks : Jwks) (getResult2 : Except String Jwks),
      getResult = .ok jwks → later - now < JWKS_CACHE_TTL →
      ¬((fetchJwks now getResult baseUrl cache).fetched.isSome ∧
        (fetchJwks later getResult2 baseUrl
          (fetchJwks now getResult baseUrl cache).cache).fetched.isSome)) := by
  refine ⟨?_, ?_, ?_⟩
  · intro e he hlt
    simp [fetchJwks, he, hlt]
  · intro hmiss
    have hfresh : fetchJwks now getResult baseUrl cache
        = fetchJwks.fetchFresh now getResult baseUrl cache := by
      rcases hmiss with hnone | ⟨e, he, hge⟩
      · simp [fetchJwks, hnone]
      · simp [fetchJwks, he, Nat.not_lt.mpr hge]
    rw [hfresh]
    constructor
    · cases getResult <;> simp [fetchJwks.fetchFresh]
    · intro jwks hok
      subst hok
      simp [fetchJwks.fetchFresh, cacheGet_cacheSet_self]
  · intro later jwks getResult2 hok hlt hcontra
    obtain ⟨hf1, hf2⟩ := hcontra
    rcases hcg : cacheGet cache baseUrl with _ | e
    · subst hok
      have hcache1 : (fetchJwks now (.ok jwks) baseUrl cache).cache
          = cacheSet baseUrl { jwks := jwks, fetchedAt := now } cache := by
        simp [fetchJwks, hcg, fetchJwks.fetchFresh]
      rw [hcache1] at hf2
      simp [fetchJwks, cacheGet_cacheSet_self, hlt] at hf2
    · by_cases hlt2 : now - e.fetchedAt < JWKS_CACHE_TTL
      · simp [fetchJwks, hcg, hlt2] at hf1
      · subst hok
        have hcache1 : (fetchJwks now (.ok jwks) baseUrl cache).cache
            = cacheSet baseUrl { jwks := jwks, fetchedAt := now } cache := by
          simp [fetchJwks, hcg, hlt2, fetchJwks.fetchFresh]
        rw [hcache1] at hf2
        simp [fetchJwks, cacheGet_cacheSet_self, hlt] at hf2

/-- Witness for `fetchJwks_cache_ttl`: a first fetch on an empty cache hits
the network and populates the cache; a second fetch 1 ms later is served
from the cache. -/
theorem fetchJwks_cache_ttl_witness :
    (fetchJwks 0 (.ok ["key1"]) "https://kiket.dev" []).fetched
      = some "https://kiket.dev/.well-known/jwks.json" ∧
    cacheGet (fetchJwks 0 (.ok ["key1"]) "https://kiket.dev" []).cache
        "https://kiket.dev"
      = some { jwks := ["key1"], fetchedAt := 0 } ∧
    ¬((fetchJwks 0 (.ok ["key1"]) "https://kiket.dev" []).fetched.isSome ∧
      (fetchJwks 1 (.ok ["key2"]) "https://kiket.dev"
        (fetchJwks 0 (.ok ["key1"]) "https://kiket.dev" []).cache).fetched.isSome) := by
  have h := fetchJwks_cache_ttl [] "https://kiket.dev" 0 (.ok ["key1"])
  have h2 := h.2.1 (Or.inl rfl)
  refine ⟨?_, (h2.2 ["key1"] rfl).2, h.2.2 1 ["key1"] (.ok ["key2"]) rfl (by decide)⟩
  rw [h2.1]
  rfl

/-- **C8**: `TelemetryReporter.record` never throws (it is a total function
into `RecordTrace`: every sink error is caught and surfaces only as a
logged warning); it attempts nothing when reporting is disabled by
configuration or by the `KIKET_SDK_TELEMETRY_OPTOUT` environment flag; and
when enabled, the feedback hook and the remote POST are each attempted
exactly when configured, for every sink outcome — so a failing hook never
suppresses the POST attempt and vice versa. -/
theorem telemetry_record_spec (enabledCfg : Bool) (telemetryUrl : Option String)
    (hasHook : Bool) (optOutEnv : Option String)
    (hookOutcome postOutcome : Except String Unit) :
    ((enabledCfg = false ∨ toLowerJs (optOutEnv.getD "") = "1") →
      (mkReporter enabledCfg telemetryUrl hasHook optOutEnv).record
          hookOutcome postOutcome
        = { hookAttempted := false, postAttempted := false, warnings := [] }) ∧
    ((mkReporter enabledCfg telemetryUrl hasHook optOutEnv).enabled = true →
      ((mkReporter enabledCfg telemetryUrl hasHook optOutEnv).record
          hookOutcome postOutcome).hookAttempted = hasHook ∧
      ((mkReporter enabledCfg telemetryUrl hasHook optOutEnv).record
          hookOutcome postOutcome).postAttempted
        = (resolveEndpoint telemetryUrl).isSome) := by
  constructor
  · intro hdis
    have hen : (mkReporter enabledCfg telemetryUrl hasHook optOutEnv).enabled
        = false := by
      rcases hdis with h | h <;> simp [mkReporter, h]
    simp [TelemetryReporter.record, hen]
  · intro hen
    cases hasHook <;> cases hookOutcome <;>
      rcases hre : resolveEndpoint telemetryUrl with _ | u <;>
        cases postOutcome <;>
          simp [TelemetryReporter.record, mkReporter, hre] at hen ⊢ <;>
            simp [hen]

/-- Witness for `telemetry_record_spec`: with telemetry enabled, a hook that
raises and a configured endpoint, the POST is still attempted; with the
opt-out variable set to `"1"`, nothing is attempted. -/
theorem telemetry_record_spec_witness :
    ((mkReporter true (some "https://t.example") true none).record
        (.error "boom") (.ok ())).hookAttempted = true ∧
    ((mkReporter true (some "https://t.example") true none).record
        (.error "boom") (.ok ())).postAttempted
      = (resolveEndpoint (some "https://t.example")).isSome ∧
    (mkReporter true (some "https://t.example") true (some "1")).record
        (.error "boom") (.ok ())
      = { hookAttempted := false, postAttempted := false, warnings := [] } := by
  have h := (telemetry_record_spec true (some "https://t.example") true none
    (.error "boom") (.ok ())).2 (by decide)
  have h2 := (telemetry_record_spec true (some "https://t.example") true (some "1")
    (.error "boom") (.ok ())).1 (Or.inr (by decide))
  exact ⟨h.1, h.2, h2⟩

/-- Reduction of `verifySignature` on a delivery carrying both lowercase
signature and timestamp headers and a non-empty secret. -/
theorem verifySignature_canonical (hmacHex : String → String → String)
    (secret body sig tsStr : String) (now : Int)
    (hsec : secret ≠ "") (hsig : sig ≠ "") (hts : tsStr ≠ "") :
    verifySignature hmacHex (some secret) body
      [("x-kiket-signature", sig), ("x-kiket-timestamp", tsStr)] now
    = match parseIntJs tsStr with
      | none => .error (.auth .invalidTimestampHeader)
      | some t =>
        if (now - t).natAbs > 300 then
          .error (.auth (.timestampOutOfRange (now - t).natAbs))
        else
          match timingSafeEqual sig (hmacHex secret (tsStr ++ "." ++ body)) with
          | .error e => .error e
          | .ok true => .ok ()
          | .ok false => .error (.auth .invalidSignature) := by
  have h1 : getHeader [("x-kiket-signature", sig), ("x-kiket-timestamp", tsStr)]
      "x-kiket-signature" = some sig := by
    simp [getHeader]
  have h2 : getHeader [("x-kiket-signature", sig), ("x-kiket-timestamp", tsStr)]
      "x-kiket-timestamp" = some tsStr := by
    simp [getHeader, List.find?]
  simp only [verifySignature, truthyStr, hsec, if_neg hsec, headerOr, h1, h2,
    hsig, if_neg hsig, if_neg hts]
  simp

/-- **C5**: on a delivery whose timestamp header parses to `t` and whose
signature is the correct HMAC, verification fails with the
timestamp-out-of-range error exactly when `|now - t| > 300` seconds, and
succeeds whenever `|now - t| ≤ 300` — so a skew of exactly 300 s is
accepted. -/
theorem verifySignature_timestamp_window (hmacHex : String → String → String)
    (secret body tsStr : String) (t now : Int)
    (hsec : secret ≠ "") (hts : parseIntJs tsStr = some t) (htss : tsStr ≠ "")
    (hsig : hmacHex secret (tsStr ++ "." ++ body) ≠ "") :
    (verifySignature hmacHex (some secret) body
        [("x-kiket-signature", hmacHex secret (tsStr ++ "." ++ body)),
         ("x-kiket-timestamp", tsStr)] now
      = .error (.auth (.timestampOutOfRange (now - t).natAbs))
     ↔ 300 < (now - t).natAbs) ∧
    ((now - t).natAbs ≤ 300 →
      verifySignature hmacHex (some secret) body
        [("x-kiket-signature", hmacHex secret (tsStr ++ "." ++ body)),
         ("x-kiket-timestamp", tsStr)] now = .ok ()) := by
  rw [verifySignature_canonical hmacHex secret body _ tsStr now hsec hsig htss,
    hts]
  by_cases hgt : 300 < (now - t).natAbs
  · simp [hgt]
  · have hle := Nat.not_lt.mp hgt
    simp [hgt, timingSafeEqual, Nat.not_lt.mpr hle]

/-- Witness for `verifySignature_timestamp_window`: with the demo digest, a
timestamp 300 s in the past is accepted and the out-of-range error appears
exactly for skews above 300 s. -/
theorem verifySignature_timestamp_window_witness :
    (verifySignature hmacDemo (some "s") "data"
        [("x-kiket-signature", hmacDemo "s" ("700." ++ "data")),
         ("x-kiket-timestamp", "700")] 1000
      = .error (.auth (.timestampOutOfRange ((1000 : Int) - 700).natAbs))
     ↔ 300 < ((1000 : Int) - 700).natAbs) ∧
    verifySignature hmacDemo (some "s") "data"
      [("x-kiket-signature", hmacDemo "s" ("700." ++ "data")),
       ("x-kiket-timestamp", "700")] 1000 = .ok () := by
  have h := verifySignature_timestamp_window hmacDemo "s" "data" "700" 700 1000
    (by decide) (by decide) (by decide) (by decide)
  exact ⟨h.1, h.2 (by decide)⟩

/-- **C6**: within the replay window, `verifySignature` accepts exactly the
signature/timestamp pair produced by `generateSignature`; presenting any
other signature of the same length fails with `InvalidSignature`, and so
does keeping the signature while mutating the body, whenever the mutation
changes the digest (as a one-bit change of the body does for HMAC-SHA256,
whose digests all have the same length). -/
theorem verify_generate_roundtrip (hmacHex : String → String → String)
    (secret body : String) (ts now : Int)
    (hsec : secret ≠ "")
    (hparse : parseIntJs (toString ts) = some ts)
    (hwin : (now - ts).natAbs ≤ 300)
    (hne : hmacHex secret (toString ts ++ "." ++ body) ≠ "") :
    verifySignature hmacHex (some secret) body
      [("x-kiket-signature", (generateSignature hmacHex secret body ts).1),
       ("x-kiket-timestamp", (generateSignature hmacHex secret body ts).2)] now
      = .ok () ∧
    (∀ sig : String,
      sig ≠ (generateSignature hmacHex secret body ts).1 →
      sig.length = (generateSignature hmacHex secret body ts).1.length →
      sig ≠ "" →
      verifySignature hmacHex (some secret) body
        [("x-kiket-signature", sig),
         ("x-kiket-timestamp", (generateSignature hmacHex secret body ts).2)] now
        = .error (.auth .invalidSignature)) ∧
    (∀ body2 : String,
      hmacHex secret (toString ts ++ "." ++ body2)
        ≠ hmacHex secret (toString ts ++ "." ++ body) →
      (hmacHex secret (toString ts ++ "." ++ body2)).length
        = (hmacHex secret (toString ts ++ "." ++ body)).length →
      verifySignature hmacHex (some secret) body2
        [("x-kiket-signature", (generateSignature hmacHex secret body ts).1),
         ("x-kiket-timestamp", (generateSignature hmacHex secret body ts).2)] now
        = .error (.auth .invalidSignature)) := by
  have htss : toString ts ≠ "" := by
    intro hcc
    rw [hcc] at hparse
    simp [parseIntJs, parseDigits] at hparse
  refine ⟨?_, ?_, ?_⟩
  · rw [generateSignature,
      verifySignature_canonical hmacHex secret body _ _ now hsec hne htss,
      hparse]
    simp [Nat.not_lt.mpr hwin, timingSafeEqual]
  · intro sig hsne hslen hsempty
    rw [generateSignature] at hsne hslen ⊢
    rw [verifySignature_canonical hmacHex secret body _ _ now hsec hsempty htss,
      hparse]
    simp only [Nat.not_lt.mpr hwin, timingSafeEqual, hslen]
    simp [Nat.not_lt.mpr hwin, hsne]
  · intro body2 hdne hdlen
    rw [generateSignature]
    rw [verifySignature_canonical hmacHex secret body2 _ _ now hsec hne htss,
      hparse]
    simp [Nat.not_lt.mpr hwin, timingSafeEqual, hdlen.symm, hdne.symm]

/-- Witness for `verify_generate_roundtrip` with the demo digest: the
generated signature verifies, and a same-length different signature — as
well as a body change that alters the digest — yields `InvalidSignature`. -/
theorem verify_generate_roundtrip_witness :
    verifySignature hmacDemo (some "s") "data"
      [("x-kiket-signature", (generateSignature hmacDemo "s" "data" 1000).1),
       ("x-kiket-timestamp", (generateSignature hmacDemo "s" "data" 1000).2)] 1000
      = .ok () ∧
    verifySignature hmacDemo (some "s") "data"
      [("x-kiket-signature", "Xac[s|1000.data]"),
       ("x-kiket-timestamp", (generateSignature hmacDemo "s" "data" 1000).2)] 1000
      = .error (.auth .invalidSignature) ∧
    verifySignature hmacDemo (some "s") "dAta"
      [("x-kiket-signature", (generateSignature hmacDemo "s" "data" 1000).1),
       ("x-kiket-timestamp", (generateSignature hmacDemo "s" "data" 1000).2)] 1000
      = .error (.auth .invalidSignature) := by
  have h := verify_generate_roundtrip hmacDemo "s" "data" 1000 1000
    (by decide) (by decide) (by decide) (by decide)
  exact ⟨h.1, h.2.1 "Xac[s|1000.data]" (by decide) (by decide) (by decide),
    h.2.2 "dAta" (by decide) (by decide)⟩

/-- **C7**: when the requested `(event, version)` pair is unregistered, the
dispatcher retries the lookup exactly once with the alternate version form
(a purely numeric version gains a `v` prefix; a `v`-prefixed version has
the prefix stripped); it answers 404 naming the event and the originally
requested version only when that retry also misses, and whenever either
lookup succeeds the found registration is the one dispatched. -/
theorem dispatch_version_fallback
    (decodeJwt : String → Except AuthError JwtPayload)
    (handlerRun : Nat → Except Thrown JSValue)
    (registry : Registry) (req : TokenRequest) (jwt : JwtPayload) (v : String)
    (hauth : verifyRuntimeToken decodeJwt req.payload = .ok jwt)
    (hver : requestedVersion req.pathVersion req.headerVersion req.queryVersion
      = some v) :
    (isNumericVersion v = true → alternateVersion v = "v" ++ v) ∧
    (∀ rest : List Char, v.data = 'v' :: rest →
      isNumericVersion v = false ∧ alternateVersion v = ⟨rest⟩) ∧
    (∀ m, registry.get req.event v = some m →
      resolveHandler registry req.event v = some m) ∧
    (registry.get req.event v = none →
      resolveHandler registry req.event v
        = registry.get req.event (alternateVersion v)) ∧
    (resolveHandler registry req.event v = none →
      (dispatchToken decodeJwt handlerRun registry req).response
        = { status := 404, body := errorBody (notFoundMsg req.event v) }) ∧
    (∀ m, resolveHandler registry req.event v = some m →
      checkScopes m.requiredScopes (buildAuthContext jwt req.payload).scopes
        = [] →
      dispatchToken decodeJwt handlerRun registry req
        = invokeStage handlerRun req.event m.version m.handler) := by
  refine ⟨?_, ?_, ?_, ?_, ?_, ?_⟩
  · intro h
    rw [alternateVersion, if_pos h]
  · intro rest h
    have hnum : isNumericVersion v = false := by
      simp [isNumericVersion, h]
    constructor
    · exact hnum
    · rw [alternateVersion, if_neg (by simp [hnum])]
      simp only [stripLeadingV, h]
  · intro m h
    simp [resolveHandler, h]
  · intro h
    simp [resolveHandler, h]
  · intro h
    simp [dispatchToken, hauth, hver, h]
  · intro m hm hsc
    simp [dispatchToken, hauth, hver, hm, hsc]

/-- Witness for `dispatch_version_fallback`: with `evt` registered only at
`v2`, a request for path version `v1` is answered 404 naming `v1`, while a
request for path version `2` resolves to the `v2` registration via the
added `v` prefix and dispatches it. -/
theorem dispatch_version_fallback_witness :
    (dispatchToken (fun _ => .ok { sub := "sub1" }) (fun _ => .ok .undef)
        (Registry.empty.register "evt" 7 "v2" [])
        { event := "evt", pathVersion := some "v1",
          payload := { authentication := some { runtime_token := some "tok" } } }).response
      = { status := 404, body := errorBody (notFoundMsg "evt" "v1") } ∧
    dispatchToken (fun _ => .ok { sub := "sub1" }) (fun _ => .ok .undef)
        (Registry.empty.register "evt" 7 "v2" [])
        { event := "evt", pathVersion := some "2",
          payload := { authentication := some { runtime_token := some "tok" } } }
      = invokeStage (fun _ => .ok .undef) "evt" "v2" 7 := by
  constructor
  · exact (dispatch_version_fallback (fun _ => .ok { sub := "sub1" })
      (fun _ => .ok .undef) (Registry.empty.register "evt" 7 "v2" [])
      { event := "evt", pathVersion := some "v1",
        payload := { authentication := some { runtime_token := some "tok" } } }
      { sub := "sub1" } "v1" rfl (by rfl)).2.2.2.2.1 (by rfl)
  · exact (dispatch_version_fallback (fun _ => .ok { sub := "sub1" })
      (fun _ => .ok .undef) (Registry.empty.register "evt" 7 "v2" [])
      { event := "evt", pathVersion := some "2",
        payload := { authentication := some { runtime_token := some "tok" } } }
      { sub := "sub1" } "2" rfl (by rfl)).2.2.2.2.2
      { event := "evt", version := "v2", handler := 7, requiredScopes := [] }
      (by rfl) (by rfl)

/-- **C10**: when the registered handler resolves to any falsy value —
`undefined`, `null`, `false`, `0` or `""` — the dispatcher responds 200
with the generic acknowledgement `{ ok: true }`; only a truthy result is
passed through unchanged as the response body
(`res.json(result || { ok: true })`). -/
theorem dispatch_falsy_result_ack
    (decodeJwt : String → Except AuthError JwtPayload)
    (handlerRun : Nat → Except Thrown JSValue)
    (registry : Registry) (req : TokenRequest) (jwt : JwtPayload)
    (v : String) (m : HandlerMetadata) (result : JSValue)
    (hauth : verifyRuntimeToken decodeJwt req.payload = .ok jwt)
    (hver : requestedVersion req.pathVersion req.headerVersion req.queryVersion
      = some v)
    (hres : resolveHandler registry req.event v = some m)
    (hsc : checkScopes m.requiredScopes (buildAuthContext jwt req.payload).scopes
      = [])
    (hrun : handlerRun m.handler = .ok result) :
    (dispatchToken decodeJwt handlerRun registry req).response
      = { status := 200,
          body := if jsTruthy result then result else ackBody } ∧
    (jsTruthy .undef = false ∧ jsTruthy .jsNull = false ∧
      jsTruthy (.bool false) = false ∧ jsTruthy (.num 0) = false ∧
      jsTruthy (.str "") = false) ∧
    (∀ (run2 : Nat → Except Thrown JSValue) (e2 v2 : String) (hid : Nat)
        (r2 : JSValue), run2 hid = .ok r2 →
      (invokeStage run2 e2 v2 hid).response
        = { status := 200, body := if jsTruthy r2 then r2 else ackBody }) := by
  refine ⟨?_, ⟨rfl, rfl, rfl, rfl, by simp [jsTruthy]⟩, ?_⟩
  · simp [dispatchToken, hauth, hver, hres, hsc, invokeStage, hrun]
  · intro run2 e2 v2 hid r2 hrun2
    simp [invokeStage, hrun2]

/-- Witness for `dispatch_falsy_result_ack`: a handler resolving to `0`
makes the dispatcher answer 200 with `{ ok: true }`. -/
theorem dispatch_falsy_result_ack_witness :
    (dispatchToken (fun _ => .ok { sub := "sub1" }) (fun _ => .ok (.num 0))
        (Registry.empty.register "evt" 7 "v1" [])
        { event := "evt", pathVersion := some "v1",
          payload := { authentication := some { runtime_token := some "tok" } } }).response
      = { status := 200, body := ackBody } := by
  have h := (dispatch_falsy_result_ack (fun _ => .ok { sub := "sub1" })
    (fun _ => .ok (.num 0)) (Registry.empty.register "evt" 7 "v1" [])
    { event := "evt", pathVersion := some "v1",
      payload := { authentication := some { runtime_token := some "tok" } } }
    { sub := "sub1" } "v1"
    { event := "evt", version := "v1", handler := 7, requiredScopes := [] }
    (.num 0) rfl (by rfl) (by rfl) (by rfl) rfl).1
  rw [h]
  rfl

/-- **C1 (amended)**: neither dispatcher chooses a verifier by the carried
credential. The token-authenticating dispatcher authenticates every
delivery with the Token Verifier alone: a missing runtime token and every
other `AuthenticationError` are answered 401. The HMAC-authenticating
dispatcher authenticates every delivery with the Signature Verifier alone:
every `AuthenticationError` is answered 401. -/
theorem dispatch_auth_single_verifier
    (decodeJwt : String → Except AuthError JwtPayload)
    (handlerRun : Nat → Except Thrown JSValue)
    (registry : Registry) (req : TokenRequest) :
    (runtimeTokenOf req.payload = none →
      (dispatchToken decodeJwt handlerRun registry req).response
        = { status := 401, body := errorBody AuthError.missingToken.message }) ∧
    (∀ tok e, runtimeTokenOf req.payload = some tok → decodeJwt tok = .error e →
      (dispatchToken decodeJwt handlerRun registry req).response
        = { status := 401, body := errorBody e.message }) ∧
    (∀ (hmacHex : String → String → String) (now : Int)
        (secret : Option String) (hreq : HmacRequest) (e : AuthError),
      verifySignature hmacHex secret hreq.rawBody hreq.headers now
        = .error (.auth e) →
      (dispatchHmac hmacHex now secret handlerRun registry hreq).response
        = { status := 401, body := errorBody e.message }) := by
  refine ⟨?_, ?_, ?_⟩
  · intro h
    simp [dispatchToken, verifyRuntimeToken, h]
  · intro tok e htok hdec
    simp [dispatchToken, verifyRuntimeToken, htok, hdec]
  · intro hmacHex now secret hreq e hv
    simp [dispatchHmac, hv]

/-- Witness for `dispatch_auth_single_verifier`: a delivery without a
runtime token is answered 401 by the token dispatcher, and a delivery
without a signature header is answered 401 by the HMAC dispatcher. -/
theorem dispatch_auth_single_verifier_witness :
    (dispatchToken (fun _ => .ok { sub := "sub1" }) (fun _ => .ok .undef)
        Registry.empty { event := "evt", payload := {} }).response
      = { status := 401, body := errorBody AuthError.missingToken.message } ∧
    (dispatchHmac hmacDemo 1000 (some "s") (fun _ => .ok .undef)
        Registry.empty { event := "evt" }).response
      = { status := 401,
          body := errorBody AuthError.missingSignatureHeader.message } := by
  have h := dispatch_auth_single_verifier (fun _ => .ok { sub := "sub1" })
    (fun _ => .ok .undef) Registry.empty { event := "evt", payload := {} }
  exact ⟨h.1 rfl, h.2.2 hmacDemo 1000 (some "s") { event := "evt" }
    .missingSignatureHeader (by rfl)⟩

/-- **C1 (counterexample)**: a delivery carrying only the HMAC credential —
valid signature and timestamp headers, no runtime-token field, the handler
registered. The claimed selection rule picks the Signature Verifier, which
accepts the delivery, so under the claim authentication succeeds; the
dispatcher of `part_004` nevertheless rejects it 401 with
"Missing runtime_token in payload", never consulting the HMAC headers. -/
theorem dispatch_auth_choice_counterexample :
    specChooseVerifier ({} : Payload)
        [("x-kiket-signature", hmacDemo "s" ("1000." ++ "data")),
         ("x-kiket-timestamp", "1000")]
      = .signature ∧
    verifySignature hmacDemo (some "s") "data"
        [("x-kiket-signature", hmacDemo "s" ("1000." ++ "data")),
         ("x-kiket-timestamp", "1000")] 1000
      = .ok () ∧
    (dispatchToken (fun _ => .error (.invalidToken "unreachable"))
        (fun _ => .ok .undef) (Registry.empty.register "evt" 7 "v1" [])
        { event := "evt", pathVersion := some "v1", payload := {} }).response
      = { status := 401,
          body := errorBody "Missing runtime_token in payload" } := by
  exact ⟨rfl, rfl, rfl⟩

/-- **C2**: at the spec's own 401 scenario — configured secret, in-window
timestamp, signature header `"bad"` — the embedded `verifySignature` hits
the `RangeError` of `crypto.timingSafeEqual` (the expected hex digest does
not have byte length 3), which is not an `AuthenticationError`, so the
dispatcher answers 500 rather than the claimed 401; an equal-length wrong
signature, by contrast, does produce the claimed 401 `Invalid signature`. -/
theorem dispatch_bad_signature_range_error :
    verifySignature hmacDemo (some "s") "\x7b\"x\":1\x7d"
        [("x-kiket-signature", "bad"), ("x-kiket-timestamp", "1000")] 1000
      = .error .range ∧
    (dispatchHmac hmacDemo 1000 (some "s") (fun _ => .ok .undef)
        (Registry.empty.register "evt" 7 "v1" [])
        { event := "evt", pathVersion := some "v1",
          headers := [("x-kiket-signature", "bad"),
            ("x-kiket-timestamp", "1000")],
          rawBody := "\x7b\"x\":1\x7d" }).response
      = { status := 500, body := errorBody rangeErrorMessage } ∧
    (dispatchHmac hmacDemo 1000 (some "s") (fun _ => .ok .undef)
        (Registry.empty.register "evt" 7 "v1" [])
        { event := "evt", pathVersion := some "v1",
          headers := [("x-kiket-signature", "Xac[s|1000.\x7b\"x\":1\x7d]"),
            ("x-kiket-timestamp", "1000")],
          rawBody := "\x7b\"x\":1\x7d" }).response
      = { status := 401, body := errorBody "Invalid signature" } := by
  exact ⟨rfl, rfl, rfl⟩

end Kiket
